import Mathlib

/-!
Verification of the data-platform-light repository against its specification.

Part A embeds `src/pipelines/dlt/pipelines.py`: the four stub pipeline entry
points and the CLI dispatcher in the module's main block.  Python exceptions
are embedded as an explicit error type, and the observable side effects of a
pipeline invocation (extraction, file writes, cursor changes) as an explicit
effect trace, so that "raises immediately with no side effect" is a statement
about a value.

Part B embeds `src/scripts/validate_env.py`: the pure aggregation logic of
the check functions, with the process environment and the HTTP client as
explicit parameters (an environment is a partial map from variable names to
strings, the HTTP client is a function from requests to either a status code
or a raised exception, mirroring the try/except structure of the source).

Part C models, from the specification's words, the cursor-based extraction
orchestrator that the source only declares (its bodies are `TODO` stubs).
-/

/-- Python exceptions that the embedded code can raise. -/
inductive PyError where
  | notImplementedError (msg : String)
  | valueError (msg : String)
deriving DecidableEq, Repr

/-- Observable side effects a pipeline invocation could perform: record
extraction from a source, a write to the Bronze landing zone, a change of a
stored cursor. -/
inductive Effect where
  | extraction
  | fileWrite (path : String)
  | cursorChange
deriving DecidableEq, Repr

/-- Stand-in for the `DltSource` return type of the source pipelines. -/
structure DltSource where
deriving DecidableEq, Repr

/-- Result of running one embedded Python function: the trace of side
effects it performed, and either its return value or the exception it
raised. -/
structure PyResult (α : Type) where
  effects : List Effect
  result : Except PyError α
deriving Repr

/-- `jira_pipeline` (pipelines.py lines 40-54): the body is a single
`raise NotImplementedError(...)`, so the effect trace is empty. -/
def jira_pipeline : PyResult DltSource :=
  ⟨[], .error (.notImplementedError "Jira pipeline will be implemented in Unit 3")⟩

/-- `bitbucket_pipeline` (pipelines.py lines 57-69). -/
def bitbucket_pipeline : PyResult DltSource :=
  ⟨[], .error (.notImplementedError "Bitbucket pipeline will be implemented in Unit 4")⟩

/-- `jenkins_pipeline` (pipelines.py lines 72-82). -/
def jenkins_pipeline : PyResult DltSource :=
  ⟨[], .error (.notImplementedError "Jenkins pipeline will be implemented in Unit 5")⟩

/-- `backfill_pipeline(days=120)` (pipelines.py lines 85-93). -/
def backfill_pipeline (days : Int := 120) : PyResult Unit :=
  ⟨[], .error (.notImplementedError "Backfill pipeline will be implemented in Unit 2")⟩

/-- Python whitespace characters stripped by `str.strip()`. -/
def pyWs (c : Char) : Bool :=
  c = ' ' || c = '\t' || c = '\n' || c = '\r' || c = '\x0b' || c = '\x0c'

/-- Python `str.strip()`: drop whitespace from both ends. -/
def pyStrip (s : String) : String :=
  String.mk (((s.data.dropWhile pyWs).reverse.dropWhile pyWs).reverse)

/-- Python `int(s)`: parse a (stripped) optionally signed decimal literal,
raising `ValueError` otherwise. -/
def pyInt (s : String) : Except PyError Int :=
  match (pyStrip s).toInt? with
  | some n => .ok n
  | none => .error (.valueError ("invalid literal for int() with base 10: " ++ s))

/-- A call the CLI makes into one of the four pipeline functions, with the
argument it passes. -/
inductive Call where
  | jira
  | bitbucket
  | jenkins
  | backfill (days : Int)
deriving DecidableEq, Repr

/-- How a CLI process run ends: a handled `sys.exit(code)`, a normal fall
off the end of the script, or an exception propagating uncaught past the
top level. -/
inductive Outcome where
  | exited (code : Nat)
  | finished
  | uncaught (e : PyError)
deriving DecidableEq, Repr

/-- Observable behaviour of one CLI run: pipeline calls made, lines
printed, and how the process ended. -/
structure CliResult where
  calls : List Call
  prints : List String
  outcome : Outcome
deriving DecidableEq, Repr

/-- The usage line printed when no pipeline name is given. -/
def usageMsg : String :=
  "Usage: python pipelines.py [jira|bitbucket|jenkins|backfill] [args...]"

/-- The `if __name__ == "__main__"` block of pipelines.py (lines 96-119).
`args` is `sys.argv` without the leading script name, so the source's
`len(sys.argv) < 2` test is `args = []` and `sys.argv[1]`, `sys.argv[2]`
are the first and second elements of `args`. -/
def cliRun (args : List String) : CliResult :=
  match args with
  | [] => { calls := [], prints := [usageMsg], outcome := .exited 1 }
  | name :: rest =>
    if name = "jira" then
      match jira_pipeline.result with
      | .ok _ => { calls := [.jira], prints := ["Jira pipeline created"], outcome := .finished }
      | .error e => { calls := [.jira], prints := [], outcome := .uncaught e }
    else if name = "bitbucket" then
      match bitbucket_pipeline.result with
      | .ok _ => { calls := [.bitbucket], prints := ["Bitbucket pipeline created"], outcome := .finished }
      | .error e => { calls := [.bitbucket], prints := [], outcome := .uncaught e }
    else if name = "jenkins" then
      match jenkins_pipeline.result with
      | .ok _ => { calls := [.jenkins], prints := ["Jenkins pipeline created"], outcome := .finished }
      | .error e => { calls := [.jenkins], prints := [], outcome := .uncaught e }
    else if name = "backfill" then
      match (match rest with | [] => Except.ok (120 : Int) | d :: _ => pyInt d) with
      | .error e => { calls := [], prints := [], outcome := .uncaught e }
      | .ok dv =>
        match (backfill_pipeline dv).result with
        | .ok _ =>
          { calls := [.backfill dv]
            prints := ["Backfill completed for " ++ toString dv ++ " days"]
            outcome := .finished }
        | .error e => { calls := [.backfill dv], prints := [], outcome := .uncaught e }
    else { calls := [], prints := ["Unknown pipeline: " ++ name], outcome := .exited 1 }

/-- A process environment, as read by `os.getenv`: a partial map from
variable names to values. -/
def Env : Type := String → Option String

/-- An HTTP GET request as issued by validate_env.py: the URL and the
basic-auth pair passed to `requests.get`. -/
structure HttpRequest where
  url : String
  user : String
  password : String
deriving DecidableEq, Repr

/-- An HTTP client: for a request, either the status code of the response
or the message of the exception `requests.get` raised. -/
def Http : Type := HttpRequest → Except String Nat

/-- Python truthiness of an `os.getenv` result, as tested by
`all([...])` in validate_env.py: `None` and the empty string are falsy. -/
def pyTruthy : Option String → Bool
  | none => false
  | some s => s != ""

/-- The `required_vars` list of `check_env_vars` (validate_env.py
lines 22-32), in source order. -/
def required_vars : List String :=
  ["JIRA_URL", "JIRA_EMAIL", "JIRA_API_TOKEN",
   "BITBUCKET_WORKSPACE", "BITBUCKET_USERNAME", "BITBUCKET_APP_PASSWORD",
   "JENKINS_URL", "JENKINS_USERNAME", "JENKINS_API_TOKEN"]

/-- `check_env_vars` (validate_env.py lines 20-41): one `(name, passed,
message)` triple per required variable; a variable counts as set when its
value is present and non-empty after `strip()`. -/
def check_env_vars (env : Env) : List (String × Bool × String) :=
  required_vars.map (fun var =>
    let value := env var
    let is_set := value.isSome && (pyStrip (value.getD "") != "")
    (var, is_set, if is_set then "✓ Set" else "✗ Missing or empty"))

/-- The request the Jira block of `check_api_connectivity` issues when all
three Jira credentials are truthy (validate_env.py lines 55-59). -/
def jiraReq (env : Env) : HttpRequest :=
  ⟨(env "JIRA_URL").getD "" ++ "/rest/api/3/myself",
   (env "JIRA_EMAIL").getD "", (env "JIRA_API_TOKEN").getD ""⟩

/-- The `all([jira_url, jira_email, jira_token])` guard (line 54). -/
def jiraCreds (env : Env) : Bool :=
  pyTruthy (env "JIRA_URL") && pyTruthy (env "JIRA_EMAIL") &&
    pyTruthy (env "JIRA_API_TOKEN")

/-- The request the Bitbucket block issues (lines 76-80). -/
def bitbucketReq (env : Env) : HttpRequest :=
  ⟨"https://api.bitbucket.org/2.0/workspaces/" ++ (env "BITBUCKET_WORKSPACE").getD "",
   (env "BITBUCKET_USERNAME").getD "", (env "BITBUCKET_APP_PASSWORD").getD ""⟩

/-- The `all([bb_workspace, bb_username, bb_password])` guard (line 75). -/
def bitbucketCreds (env : Env) : Bool :=
  pyTruthy (env "BITBUCKET_WORKSPACE") && pyTruthy (env "BITBUCKET_USERNAME") &&
    pyTruthy (env "BITBUCKET_APP_PASSWORD")

/-- The request the Jenkins block issues (lines 97-101). -/
def jenkinsReq (env : Env) : HttpRequest :=
  ⟨(env "JENKINS_URL").getD "" ++ "/api/json",
   (env "JENKINS_USERNAME").getD "", (env "JENKINS_API_TOKEN").getD ""⟩

/-- The `all([jenkins_url, jenkins_username, jenkins_token])` guard
(line 96). -/
def jenkinsCreds (env : Env) : Bool :=
  pyTruthy (env "JENKINS_URL") && pyTruthy (env "JENKINS_USERNAME") &&
    pyTruthy (env "JENKINS_API_TOKEN")

/-- The shared shape of each try-block's request handling: issue the
request; a 200 response is a pass, any other status a failure, and a
raised exception is caught and turned into a failed result carrying the
first 50 characters of its message. -/
def apiProbe (label : String) (req : HttpRequest) (http : Http) :
    (String × Bool × String) × List HttpRequest :=
  match http req with
  | .ok status =>
    if status = 200 then ((label, true, "✓ Connected"), [req])
    else ((label, false, "✗ HTTP " ++ toString status), [req])
  | .error e => ((label, false, "✗ Error: " ++ e.take 50), [req])

/-- The Jira try-block of `check_api_connectivity` (lines 48-67): its
result triple and the requests it issued. -/
def jiraCheck (env : Env) (http : Http) : (String × Bool × String) × List HttpRequest :=
  if jiraCreds env then apiProbe "Jira API" (jiraReq env) http
  else (("Jira API", false, "✗ Missing credentials"), [])

/-- The Bitbucket try-block (lines 69-88). -/
def bitbucketCheck (env : Env) (http : Http) : (String × Bool × String) × List HttpRequest :=
  if bitbucketCreds env then apiProbe "Bitbucket API" (bitbucketReq env) http
  else (("Bitbucket API", false, "✗ Missing credentials"), [])

/-- The Jenkins try-block (lines 90-109). -/
def jenkinsCheck (env : Env) (http : Http) : (String × Bool × String) × List HttpRequest :=
  if jenkinsCreds env then apiProbe "Jenkins API" (jenkinsReq env) http
  else (("Jenkins API", false, "✗ Missing credentials"), [])

/-- `check_api_connectivity` (validate_env.py lines 44-111): the three
blocks run in sequence, appending one result each; the second component
collects every HTTP request actually issued. -/
def check_api_connectivity (env : Env) (http : Http) :
    List (String × Bool × String) × List HttpRequest :=
  ([(jiraCheck env http).1, (bitbucketCheck env http).1, (jenkinsCheck env http).1],
   (jiraCheck env http).2 ++ (bitbucketCheck env http).2 ++ (jenkinsCheck env http).2)

/-- The per-section pass count accumulated by the loop in `main`
(validate_env.py lines 190-201). -/
def countPassed (checks : List (String × Bool × String)) : Nat :=
  (checks.filter (fun c => c.2.1)).length

/-- `main` of validate_env.py (lines 175-211), as a function of the
results of the four check sections (the check functions themselves
perform I/O and are passed in here as their result lists): it sums the
pass counts and the check counts over all sections and returns exit code
0 when they are equal, 1 otherwise.  Named `validate_main` because Lean
reserves the name `main` for executable entry points. -/
def validate_main (envChecks apiChecks dirChecks depChecks : List (String × Bool × String)) : Nat :=
  let total_checks :=
    envChecks.length + apiChecks.length + dirChecks.length + depChecks.length
  let total_passed :=
    countPassed envChecks + countPassed apiChecks +
      countPassed dirChecks + countPassed depChecks
  if total_passed = total_checks then 0 else 1

/-- An environment with every variable unset, used as a concrete input. -/
def envNone : Env := fun _ => none

/-- An environment where JIRA_URL is whitespace-only and every other
variable is set to a non-empty value, used as a concrete input. -/
def envWhite : Env := fun v => if v = "JIRA_URL" then some "   " else some "x"

/-- An HTTP client that answers 200 to every request, used as a concrete
input. -/
def httpOk : Http := fun _ => .ok 200

/-- Modelled from the spec: the run phases of the Pipeline Orchestrator
state machine (spec section 4.3).  The orchestrator is absent from src —
the pipeline bodies are `TODO` stubs — so it is modelled from the
specification's words. -/
inductive Phase where
  | pending
  | extracting
  | writing
  | committing
  | done
  | failed
deriving DecidableEq, Repr

/-- Modelled from the spec: the durable state of one (source, entity)
pair — its committed cursor (spec section 3, "Cursor"; positions are
opaque monotone markers, modelled as integers) and the append-only
sequence of landed batches (section 4.2, "Landing Writer"). -/
structure SysState where
  cursor : Option Int
  landed : List (List Int)
deriving DecidableEq, Repr

/-- Modelled from the spec: the ephemeral state of one orchestrator run
(section 3, "RunContext"): current phase, the effective start position of
the run, the extracted batch, and the durable state it acts on. -/
structure RunState where
  phase : Phase
  start : Int
  batch : List Int
  sys : SysState
deriving DecidableEq, Repr

/-- Modelled from the spec: the Source Connector boundary (section 6) —
`fetch(sourceConfig, startPosition, windowEnd)` yields the records of the
source's stream whose positions lie between the start position and the
window end, in stream order. -/
def fetch (stream : List Int) (startPos winEnd : Int) : List Int :=
  stream.filter (fun p => decide (startPos ≤ p) && decide (p ≤ winEnd))

/-- Modelled from the spec: the effective start position of a run
(section 4.3, PENDING → EXTRACTING): the committed cursor when present,
otherwise the fallback position derived from the configured window. -/
def effectiveStart (cursor : Option Int) (fallback : Int) : Int :=
  cursor.getD fallback

/-- Modelled from the spec: the cursor position committed at the end of a
run — the furthest extracted position, or the run's start position when
the batch is empty. -/
def commitPos (startPos : Int) (batch : List Int) : Int :=
  batch.foldl max startPos

/-- Modelled from the spec: a fresh run over a durable state, beginning
in PENDING at the given start position with an empty batch. -/
def initRun (sys : SysState) (startPos : Int) : RunState :=
  ⟨.pending, startPos, [], sys⟩

/-- Modelled from the spec: one transition of the orchestrator state
machine (section 4.3).  PENDING→EXTRACTING opens the connector from the
run's start position; EXTRACTING→WRITING fixes the finite batch;
WRITING→COMMITTING appends the batch to the append-only landing zone
(durable write confirmed); COMMITTING→DONE commits the advanced cursor;
DONE and FAILED are terminal. -/
def step (stream : List Int) (winEnd : Int) (r : RunState) : RunState :=
  match r.phase with
  | .pending => { r with phase := .extracting, batch := fetch stream r.start winEnd }
  | .extracting => { r with phase := .writing }
  | .writing =>
    { r with phase := .committing
             sys := { r.sys with landed := r.sys.landed ++ [r.batch] } }
  | .committing =>
    { r with phase := .done
             sys := { r.sys with cursor := some (commitPos r.start r.batch) } }
  | .done => r
  | .failed => r

/-- Modelled from the spec: `n` transitions of the orchestrator state
machine; a complete successful run is four transitions from PENDING. -/
def runN (stream : List Int) (winEnd : Int) : Nat → RunState → RunState
  | 0, r => r
  | n + 1, r => runN stream winEnd n (step stream winEnd r)

/-- Modelled from the spec: the Cursor Store `reset` operation (section
4.1), used by backfill: it sets the cursor to null and touches nothing
else. -/
def cursorReset (sys : SysState) : SysState :=
  { sys with cursor := none }

/-- Modelled from the spec: the backfill operation (section 4.3) — reset
the cursor, then run the identical state machine with the position
argument forced to "now − N days" rather than "last cursor". -/
def backfill_run (stream : List Int) (now days : Int) (sys : SysState) : RunState :=
  runN stream now 4 (initRun (cursorReset sys) (now - days))

/-- Claim C1: every invocation of each of the four pipeline entry points
raises `NotImplementedError` immediately, performing no extraction, no file
write, and no cursor change before raising. -/
theorem pipelines_raise_immediately : ∀ days : Int,
    jira_pipeline.effects = [] ∧
    jira_pipeline.result =
      .error (.notImplementedError "Jira pipeline will be implemented in Unit 3") ∧
    bitbucket_pipeline.effects = [] ∧
    bitbucket_pipeline.result =
      .error (.notImplementedError "Bitbucket pipeline will be implemented in Unit 4") ∧
    jenkins_pipeline.effects = [] ∧
    jenkins_pipeline.result =
      .error (.notImplementedError "Jenkins pipeline will be implemented in Unit 5") ∧
    (backfill_pipeline days).effects = [] ∧
    (backfill_pipeline days).result =
      .error (.notImplementedError "Backfill pipeline will be implemented in Unit 2") := by
  intro days
  exact ⟨rfl, rfl, rfl, rfl, rfl, rfl, rfl, rfl⟩

/-- Counterexample to claim C2: the CLI invoked with first argument "jira"
ends with a `NotImplementedError` propagating uncaught past the top level,
so it is not the case that every run ends in a normal return or a handled
non-zero exit. -/
theorem cli_uncaught_on_jira :
    (cliRun ["jira"]).outcome =
      Outcome.uncaught (.notImplementedError "Jira pipeline will be implemented in Unit 3") ∧
    ¬ ((∃ c, (cliRun ["jira"]).outcome = Outcome.exited c) ∨
        (cliRun ["jira"]).outcome = Outcome.finished) := by
  refine ⟨rfl, ?_⟩
  intro h
  rcases h with ⟨c, hc⟩ | hf
  · simp [cliRun, jira_pipeline] at hc
  · simp [cliRun, jira_pipeline] at hf

/-- Amended claim C2: a CLI run ends without an uncaught exception exactly
when its first argument is absent or outside the four recognized names;
for each of "jira", "bitbucket", "jenkins" and "backfill" the stub's
`NotImplementedError` (or, for "backfill", possibly a `ValueError` from
parsing the day argument) propagates uncaught past the top level. -/
theorem cli_uncaught_iff_known_name (args : List String) :
    (∃ e, (cliRun args).outcome = Outcome.uncaught e) ↔
      args.head? ∈ ([some "jira", some "bitbucket", some "jenkins", some "backfill"] :
        List (Option String)) := by
  match args with
  | [] => simp [cliRun]
  | name :: rest =>
    by_cases h1 : name = "jira"
    · subst h1; simp [cliRun, jira_pipeline]
    · by_cases h2 : name = "bitbucket"
      · subst h2; simp [cliRun, bitbucket_pipeline]
      · by_cases h3 : name = "jenkins"
        · subst h3; simp [cliRun, jenkins_pipeline]
        · by_cases h4 : name = "backfill"
          · subst h4
            constructor
            · intro _; simp
            · intro _
              match rest with
              | [] =>
                exact ⟨.notImplementedError "Backfill pipeline will be implemented in Unit 2", rfl⟩
              | d :: ds =>
                match hp : pyInt d with
                | .ok dv =>
                  exact ⟨.notImplementedError "Backfill pipeline will be implemented in Unit 2",
                    by simp [cliRun, hp, backfill_pipeline]⟩
                | .error e => exact ⟨e, by simp [cliRun, hp]⟩
          · simp [cliRun, h1, h2, h3, h4]

/-- Claim C4: the backfill day-count argument is optional with default 120,
and the CLI invoked as "backfill" with no extra argument passes 120. -/
theorem backfill_default_120 :
    backfill_pipeline = backfill_pipeline 120 ∧
    (cliRun ["backfill"]).calls = [Call.backfill 120] :=
  ⟨rfl, rfl⟩

/-- Claim C5: for an invocation with no arguments, or any first argument
outside the four recognized names, the CLI prints a diagnostic message and
exits with code 1 without calling any pipeline function. -/
theorem cli_rejects_unknown (args : List String)
    (h : args.head? ∉ ([some "jira", some "bitbucket", some "jenkins", some "backfill"] :
      List (Option String))) :
    (cliRun args).outcome = Outcome.exited 1 ∧
    (cliRun args).calls = [] ∧
    (cliRun args).prints ≠ [] := by
  match args with
  | [] => exact ⟨rfl, rfl, by simp [cliRun, usageMsg]⟩
  | name :: rest =>
    simp only [List.head?, List.mem_cons, List.mem_singleton, Option.some.injEq] at h
    push_neg at h
    obtain ⟨h1, h2, h3, h4⟩ := h
    refine ⟨?_, ?_, ?_⟩ <;> simp [cliRun, h1, h2, h3, h4]

/-- Witness for C5 at the concrete argument vector ["frobnicate"]. -/
theorem cli_rejects_unknown_witness :
    (["frobnicate"] : List String).head? ∉
      ([some "jira", some "bitbucket", some "jenkins", some "backfill"] :
        List (Option String)) ∧
    ((cliRun ["frobnicate"]).outcome = Outcome.exited 1 ∧
     (cliRun ["frobnicate"]).calls = [] ∧
     (cliRun ["frobnicate"]).prints ≠ []) :=
  ⟨by decide, cli_rejects_unknown ["frobnicate"] (by decide)⟩

/-- Helper: the pass flag computed by `check_env_vars` is true exactly
when the variable's value is present and non-empty after stripping. -/
theorem is_set_iff (o : Option String) :
    (o.isSome && (pyStrip (o.getD "") != "")) = true ↔
      ∃ v, o = some v ∧ pyStrip v ≠ "" := by
  cases o with
  | none => simp
  | some v => simp [bne_iff_ne]

/-- Claim C9: `check_env_vars` returns exactly one result per each of the
nine named environment variables, in the listed order, and classifies a
variable as set if and only if its value is present and not empty after
stripping whitespace, so a whitespace-only value counts as missing. -/
theorem check_env_vars_spec (env : Env) :
    (check_env_vars env).length = 9 ∧
    (check_env_vars env).map (fun r => r.1) =
      ["JIRA_URL", "JIRA_EMAIL", "JIRA_API_TOKEN",
       "BITBUCKET_WORKSPACE", "BITBUCKET_USERNAME", "BITBUCKET_APP_PASSWORD",
       "JENKINS_URL", "JENKINS_USERNAME", "JENKINS_API_TOKEN"] ∧
    ∀ r ∈ check_env_vars env,
      (r.2.1 = true ↔ ∃ v, env r.1 = some v ∧ pyStrip v ≠ "") := by
  refine ⟨rfl, rfl, ?_⟩
  intro r hr
  simp only [check_env_vars, List.mem_map] at hr
  obtain ⟨var, _, rfl⟩ := hr
  simpa using is_set_iff (env var)

/-- Witness for C9 at a concrete environment where JIRA_URL is set to a
whitespace-only value and is classified as missing. -/
theorem check_env_vars_spec_witness :
    (("JIRA_URL", false, "✗ Missing or empty") ∈ check_env_vars envWhite) ∧
    ((("JIRA_URL", false, "✗ Missing or empty") : String × Bool × String).2.1 = true ↔
      ∃ v, envWhite ("JIRA_URL", false, "✗ Missing or empty").1 = some v ∧ pyStrip v ≠ "") :=
  ⟨by decide,
   (check_env_vars_spec envWhite).2.2 ("JIRA_URL", false, "✗ Missing or empty") (by decide)⟩

/-- Helper: the loop's pass count never exceeds the section length. -/
theorem countPassed_le (l : List (String × Bool × String)) :
    countPassed l ≤ l.length :=
  List.length_filter_le _ _

/-- Helper: the pass count equals the section length iff every check in
the section passed. -/
theorem countPassed_eq_length_iff (l : List (String × Bool × String)) :
    countPassed l = l.length ↔ ∀ c ∈ l, c.2.1 = true := by
  unfold countPassed
  rw [List.filter_length_eq_length]

/-- Claim C8: `main` returns exit code 0 if and only if every individual
check across all four sections passed, and returns 1 otherwise; as a
total function of the section results it has no other outcome. -/
theorem main_exit_code (e a d p : List (String × Bool × String)) :
    (validate_main e a d p = 0 ↔ ∀ c ∈ e ++ a ++ d ++ p, c.2.1 = true) ∧
    (validate_main e a d p = 0 ∨ validate_main e a d p = 1) := by
  have he := countPassed_le e
  have ha := countPassed_le a
  have hd := countPassed_le d
  have hp := countPassed_le p
  have key : validate_main e a d p = 0 ↔
      (countPassed e = e.length ∧ countPassed a = a.length ∧
       countPassed d = d.length ∧ countPassed p = p.length) := by
    simp only [validate_main]
    by_cases h : countPassed e + countPassed a + countPassed d + countPassed p =
        e.length + a.length + d.length + p.length
    · simp only [if_pos h]
      constructor
      · intro _; omega
      · intro _; trivial
    · simp only [if_neg h]
      constructor
      · intro h10
        exact absurd h10 one_ne_zero
      · intro hc
        exact absurd (by omega : countPassed e + countPassed a +
          countPassed d + countPassed p = e.length + a.length + d.length + p.length) h
  constructor
  · rw [key, countPassed_eq_length_iff, countPassed_eq_length_iff,
        countPassed_eq_length_iff, countPassed_eq_length_iff]
    simp only [List.forall_mem_append]
    tauto
  · by_cases h : countPassed e + countPassed a + countPassed d + countPassed p =
        e.length + a.length + d.length + p.length
    · exact Or.inl (by simp [validate_main, h])
    · exact Or.inr (by simp [validate_main, h])

/-- Helper: whatever the HTTP outcome, a probe's result keeps its source
label. -/
theorem apiProbe_label (label : String) (req : HttpRequest) (http : Http) :
    (apiProbe label req http).1.1 = label := by
  unfold apiProbe
  rcases h : http req with e | s
  · rfl
  · simp only []
    split <;> rfl

/-- Helper: the Jira block's result is always labelled "Jira API". -/
theorem jiraCheck_label (env : Env) (http : Http) :
    (jiraCheck env http).1.1 = "Jira API" := by
  unfold jiraCheck
  split
  · exact apiProbe_label _ _ _
  · rfl

/-- Helper: the Bitbucket block's result is always labelled
"Bitbucket API". -/
theorem bitbucketCheck_label (env : Env) (http : Http) :
    (bitbucketCheck env http).1.1 = "Bitbucket API" := by
  unfold bitbucketCheck
  split
  · exact apiProbe_label _ _ _
  · rfl

/-- Helper: the Jenkins block's result is always labelled "Jenkins API". -/
theorem jenkinsCheck_label (env : Env) (http : Http) :
    (jenkinsCheck env http).1.1 = "Jenkins API" := by
  unfold jenkinsCheck
  split
  · exact apiProbe_label _ _ _
  · rfl

/-- Claim C10: `check_api_connectivity` always returns exactly three
results, one per source in the order Jira, Bitbucket, Jenkins; a raised
request exception is caught and becomes a failed result rather than
propagating; and when a source's credentials are not all set, that source
is reported as failed with no HTTP request issued for it. -/
theorem check_api_connectivity_spec (env : Env) (http : Http) :
    ((check_api_connectivity env http).1.map (fun r => r.1) =
      ["Jira API", "Bitbucket API", "Jenkins API"]) ∧
    (jiraCreds env = false →
      (jiraCheck env http).1 = ("Jira API", false, "✗ Missing credentials") ∧
      (jiraCheck env http).2 = []) ∧
    (bitbucketCreds env = false →
      (bitbucketCheck env http).1 = ("Bitbucket API", false, "✗ Missing credentials") ∧
      (bitbucketCheck env http).2 = []) ∧
    (jenkinsCreds env = false →
      (jenkinsCheck env http).1 = ("Jenkins API", false, "✗ Missing credentials") ∧
      (jenkinsCheck env http).2 = []) ∧
    (∀ label req e, http req = .error e →
      (apiProbe label req http).1 = (label, false, "✗ Error: " ++ e.take 50)) := by
  refine ⟨?_, ?_, ?_, ?_, ?_⟩
  · show [(jiraCheck env http).1.1, (bitbucketCheck env http).1.1,
      (jenkinsCheck env http).1.1] = _
    rw [jiraCheck_label, bitbucketCheck_label, jenkinsCheck_label]
  · intro h
    unfold jiraCheck
    rw [h]
    exact ⟨rfl, rfl⟩
  · intro h
    unfold bitbucketCheck
    rw [h]
    exact ⟨rfl, rfl⟩
  · intro h
    unfold jenkinsCheck
    rw [h]
    exact ⟨rfl, rfl⟩
  · intro label req e he
    unfold apiProbe
    rw [he]

/-- Witness for C10 at the all-unset environment: the Jira credentials
are missing, the Jira result is the failed "Missing credentials" triple,
and no Jira request is issued. -/
theorem check_api_connectivity_spec_witness :
    jiraCreds envNone = false ∧
    ((jiraCheck envNone httpOk).1 = ("Jira API", false, "✗ Missing credentials") ∧
     (jiraCheck envNone httpOk).2 = []) :=
  ⟨rfl, (check_api_connectivity_spec envNone httpOk).2.1 rfl⟩

/-- Helper: DONE is terminal — a step from DONE changes nothing. -/
theorem step_of_done (stream : List Int) (winEnd : Int) (r : RunState)
    (h : r.phase = Phase.done) : step stream winEnd r = r := by
  obtain ⟨ph, st, b, sy⟩ := r
  have h' : ph = Phase.done := h
  subst h'
  rfl

/-- Helper: once a run is DONE, further transitions change nothing. -/
theorem runN_of_done (stream : List Int) (winEnd : Int) (n : Nat) (r : RunState)
    (h : r.phase = Phase.done) : runN stream winEnd n r = r := by
  induction n with
  | zero => rfl
  | succ n ih =>
    show runN stream winEnd n (step stream winEnd r) = r
    rw [step_of_done stream winEnd r h]
    exact ih

/-- Helper: as long as a run has not reached DONE, its cursor is the one
it started with — the only transition that changes the cursor is
COMMITTING→DONE. -/
theorem runN_cursor_stable (stream : List Int) (winEnd : Int) (n : Nat) (r : RunState)
    (h : (runN stream winEnd n r).phase ≠ Phase.done) :
    (runN stream winEnd n r).sys.cursor = r.sys.cursor := by
  induction n generalizing r with
  | zero => rfl
  | succ n ih =>
    have hs : runN stream winEnd (n + 1) r = runN stream winEnd n (step stream winEnd r) := rfl
    rw [hs] at h ⊢
    obtain ⟨ph, st, b, sy⟩ := r
    cases ph with
    | pending => exact ih _ h
    | extracting => exact ih _ h
    | writing => exact ih _ h
    | committing =>
      exact absurd (by rw [runN_of_done stream winEnd n _ rfl]; rfl) h
    | done =>
      exact absurd (by rw [runN_of_done stream winEnd n _ rfl]; rfl) h
    | failed => exact ih _ h

/-- Helper: the state three transitions into a run — the kill point
between WRITING and COMMITTING: the batch is durably landed but the
cursor is not yet advanced. -/
theorem run3_from_pending (stream : List Int) (winEnd pos : Int) (sys : SysState) :
    runN stream winEnd 3 (initRun sys pos) =
      ⟨Phase.committing, pos, fetch stream pos winEnd,
       ⟨sys.cursor, sys.landed ++ [fetch stream pos winEnd]⟩⟩ := rfl

/-- Helper: the state after a complete four-transition run: the batch is
landed and the cursor committed to the furthest extracted position. -/
theorem run4_from_pending (stream : List Int) (winEnd pos : Int) (sys : SysState) :
    runN stream winEnd 4 (initRun sys pos) =
      ⟨Phase.done, pos, fetch stream pos winEnd,
       ⟨some (commitPos pos (fetch stream pos winEnd)),
        sys.landed ++ [fetch stream pos winEnd]⟩⟩ := rfl

/-- Helper: a left fold of `max` never goes below its initial value. -/
theorem foldl_max_ge_start (startPos : Int) (l : List Int) :
    startPos ≤ l.foldl max startPos := by
  induction l generalizing startPos with
  | nil => exact le_refl startPos
  | cons x xs ih => exact le_trans (le_max_left startPos x) (ih (max startPos x))

/-- Claim C3 (spec-modelled): invoking backfill with N days resets the
stored cursor to null regardless of any prior value, so the run it
launches — and the effective start of the next incremental run before a
new commit — is "now − N days" rather than the old cursor; and the
append-only landing zone keeps every previously landed file. -/
theorem backfill_resets_cursor (stream : List Int) (now days : Int) (sys : SysState) :
    (cursorReset sys).cursor = none ∧
    effectiveStart (cursorReset sys).cursor (now - days) = now - days ∧
    (backfill_run stream now days sys).start = now - days ∧
    (backfill_run stream now days sys).sys.landed.take sys.landed.length = sys.landed := by
  refine ⟨rfl, rfl, rfl, ?_⟩
  show (sys.landed ++ [fetch stream (now - days) now]).take sys.landed.length = sys.landed
  exact List.take_left _ _

/-- Claim C6 (spec-modelled): the cursor is advanced only after its batch
has been durably written, never speculatively: while a run has not
reached DONE its cursor equals the initial committed one; in particular,
a kill between WRITING and COMMITTING (three transitions in) leaves a
state whose batch is already landed but whose cursor — and hence the
effective start of a subsequent run — is the old committed position, not
a mid-batch position. -/
theorem cursor_advance_only_after_write (stream : List Int) (winEnd pos fallback : Int)
    (sys : SysState) (n : Nat)
    (h : (runN stream winEnd n (initRun sys pos)).phase ≠ Phase.done) :
    (runN stream winEnd n (initRun sys pos)).sys.cursor = sys.cursor ∧
    (runN stream winEnd 3 (initRun sys pos)).phase = Phase.committing ∧
    (runN stream winEnd 3 (initRun sys pos)).sys.landed =
      sys.landed ++ [fetch stream pos winEnd] ∧
    (runN stream winEnd 3 (initRun sys pos)).sys.cursor = sys.cursor ∧
    effectiveStart (runN stream winEnd 3 (initRun sys pos)).sys.cursor fallback =
      effectiveStart sys.cursor fallback :=
  ⟨runN_cursor_stable stream winEnd n (initRun sys pos) h, rfl, rfl, rfl, rfl⟩

/-- Witness for C6: a concrete run over the stream [1, 2] from committed
cursor 0, killed three transitions in. -/
theorem cursor_advance_only_after_write_witness :
    ((runN [1, 2] 10 3 (initRun ⟨some 0, []⟩ 0)).phase ≠ Phase.done) ∧
    ((runN [1, 2] 10 3 (initRun ⟨some 0, []⟩ 0)).sys.cursor =
        (⟨some 0, []⟩ : SysState).cursor ∧
      (runN [1, 2] 10 3 (initRun ⟨some 0, []⟩ 0)).phase = Phase.committing ∧
      (runN [1, 2] 10 3 (initRun ⟨some 0, []⟩ 0)).sys.landed =
        (⟨some 0, []⟩ : SysState).landed ++ [fetch [1, 2] 0 10] ∧
      (runN [1, 2] 10 3 (initRun ⟨some 0, []⟩ 0)).sys.cursor =
        (⟨some 0, []⟩ : SysState).cursor ∧
      effectiveStart (runN [1, 2] 10 3 (initRun ⟨some 0, []⟩ 0)).sys.cursor 5 =
        effectiveStart (⟨some 0, []⟩ : SysState).cursor 5) :=
  ⟨by decide, cursor_advance_only_after_write [1, 2] 10 0 5 ⟨some 0, []⟩ 3 (by decide)⟩

/-- Claim C7 (spec-modelled): after a simulated crash of a run started
from committed cursor c (killed before DONE, so the cursor is still c),
re-running extraction from that same cursor produces a batch containing
every record the crashed run landed — no record loss, duplicates
acceptable — and completing the re-run commits a cursor position that is
monotonically non-decreasing versus c. -/
theorem rerun_superset_and_monotone (stream : List Int) (winEnd c fallback : Int)
    (sys : SysState) (n : Nat) (hc : sys.cursor = some c) (hn : n ≤ 3) :
    (∀ b ∈ (runN stream winEnd n (initRun sys c)).sys.landed.drop sys.landed.length,
      ∀ p ∈ b,
        p ∈ fetch stream
          (effectiveStart (runN stream winEnd n (initRun sys c)).sys.cursor fallback)
          winEnd) ∧
    (∃ c2,
      (runN stream winEnd 4
        (initRun (runN stream winEnd n (initRun sys c)).sys
          (effectiveStart (runN stream winEnd n (initRun sys c)).sys.cursor fallback))).sys.cursor
        = some c2 ∧ c ≤ c2) := by
  interval_cases n
  · refine ⟨?_, ?_⟩
    · intro b hb
      rw [show (runN stream winEnd 0 (initRun sys c)).sys.landed = sys.landed from rfl,
        List.drop_length] at hb
      exact absurd hb (List.not_mem_nil b)
    · rw [show (runN stream winEnd 0 (initRun sys c)).sys = sys from rfl, hc]
      rw [run4_from_pending]
      exact ⟨_, rfl, foldl_max_ge_start c _⟩
  · refine ⟨?_, ?_⟩
    · intro b hb
      rw [show (runN stream winEnd 1 (initRun sys c)).sys.landed = sys.landed from rfl,
        List.drop_length] at hb
      exact absurd hb (List.not_mem_nil b)
    · rw [show (runN stream winEnd 1 (initRun sys c)).sys = sys from rfl, hc]
      rw [run4_from_pending]
      exact ⟨_, rfl, foldl_max_ge_start c _⟩
  · refine ⟨?_, ?_⟩
    · intro b hb
      rw [show (runN stream winEnd 2 (initRun sys c)).sys.landed = sys.landed from rfl,
        List.drop_length] at hb
      exact absurd hb (List.not_mem_nil b)
    · rw [show (runN stream winEnd 2 (initRun sys c)).sys = sys from rfl, hc]
      rw [run4_from_pending]
      exact ⟨_, rfl, foldl_max_ge_start c _⟩
  · refine ⟨?_, ?_⟩
    · intro b hb p hp
      rw [show (runN stream winEnd 3 (initRun sys c)).sys.landed =
          sys.landed ++ [fetch stream c winEnd] from rfl, List.drop_left] at hb
      rw [List.mem_singleton] at hb
      subst hb
      rw [show (runN stream winEnd 3 (initRun sys c)).sys.cursor = sys.cursor from rfl, hc]
      exact hp
    · rw [show (runN stream winEnd 3 (initRun sys c)).sys =
          ⟨sys.cursor, sys.landed ++ [fetch stream c winEnd]⟩ from rfl, hc]
      rw [run4_from_pending]
      exact ⟨_, rfl, foldl_max_ge_start c _⟩

/-- Witness for C7: a concrete crash three transitions into a run over
the stream [1, 2] from committed cursor 0, followed by a complete
re-run. -/
theorem rerun_superset_and_monotone_witness :
    ((⟨some 0, []⟩ : SysState).cursor = some 0) ∧ ((3 : Nat) ≤ 3) ∧
    ((∀ b ∈ (runN [1, 2] 10 3 (initRun ⟨some 0, []⟩ 0)).sys.landed.drop
        (⟨some 0, []⟩ : SysState).landed.length,
      ∀ p ∈ b,
        p ∈ fetch [1, 2]
          (effectiveStart (runN [1, 2] 10 3 (initRun ⟨some 0, []⟩ 0)).sys.cursor 5) 10) ∧
    (∃ c2,
      (runN [1, 2] 10 4
        (initRun (runN [1, 2] 10 3 (initRun ⟨some 0, []⟩ 0)).sys
          (effectiveStart (runN [1, 2] 10 3 (initRun ⟨some 0, []⟩ 0)).sys.cursor 5))).sys.cursor
        = some c2 ∧ (0 : Int) ≤ c2)) :=
  ⟨rfl, by decide,
   rerun_superset_and_monotone [1, 2] 10 0 5 ⟨some 0, []⟩ 3 rfl (by decide)⟩
